import Mathlib

/-!
Verification of the Xiaomi gateway integration module
(`homeassistant/components/xiaomi.py`).

The file gives a shallow embedding of the module together with
proofs about its behaviour.  The embedding mirrors the Python source:

* `normalizeSid` — the sid normalization `sid.replace(":", "").lower()`;
* `validateGateways` — the key-length check of the configuration loop in
  `setup` (a missing key only warns, a present key of length ≠ 16 aborts);
* `discoveryLoop` / `setup` — the bounded discovery-retry loop and the
  overall setup outcome;
* `parse_voltage` / `push_data` — the battery telemetry transform of
  `XiaomiDevice.parse_voltage` and the push dispatch of
  `XiaomiDevice.push_data` (with the abstract `parse_data` as a parameter);
* `play_ringtone_service` / `stop_ringtone_service` — the two ringtone
  services, modelled as functions from the service-call data and the list
  of live gateway connections to an outcome (an optional logged error plus
  the list of writes issued to hubs).

Python dictionaries holding integer payloads are modelled as association
lists with unique keys (`lookupKey`, `setAttr`); integer arithmetic is on
`Int`, the float division of `parse_voltage` on `ℚ` (exact for the values
involved); Python's `round` is `round` on `ℚ` (for integer millivolt
inputs the two agree: no ties arise).
-/

namespace Xiaomi

/-! Configuration data model (`setup`, lines 42–55) -/

/-- One entry of the `gateways` configuration list: `{sid: ..., key: ...}`,
either field possibly `None`. -/
structure GatewayConfig where
  sid : Option String
  key : Option String
deriving DecidableEq

/-- Normalization `gateway['sid'].replace(":", "").lower()`: every `:`
removed, then lowercased (per character, as for the ASCII identifiers
involved). -/
def normalizeSid (s : String) : String :=
  ⟨(s.data.filter (fun c => c != ':')).map Char.toLower⟩

/-- The key check of the configuration loop in `setup`: a `None` key only
logs a warning; a present key whose length is not 16 makes `setup` return
`False` immediately. Returns `true` when the loop finishes without
aborting. -/
def validateGateways : List GatewayConfig → Bool
  | [] => true
  | g :: rest =>
    match g.key with
    | none => validateGateways rest
    | some k => if k.length = 16 then validateGateways rest else false

/-! Discovery loop (`setup`, lines 62–70)

The gateway client is modelled by `step : Nat → Nat`, the effect of one
`discover_gateways()` call on the count of known connections
(`len(hass.data[PY_XIAOMI_GATEWAY].gateways)`). -/

/-- The loop `for _ in range(retries): discover(); if count >= expected:
break`.  Returns the number of discovery calls made and the final
count. -/
def discoveryLoop (step : Nat → Nat) (expected : Nat) :
    Nat → Nat → Nat × Nat
  | 0, count => (0, count)
  | retries + 1, count =>
    let count' := step count
    if expected ≤ count' then (1, count')
    else
      let r := discoveryLoop step expected retries count'
      (r.1 + 1, r.2)

/-- Outcome of `setup`: `configError` and `noGateways` are the two
`return False` paths, `success` is `return True`. -/
inductive SetupResult
  | configError
  | noGateways
  | success
deriving DecidableEq

/-- The `setup` function: validate keys, run the discovery loop with
`expected = len(gateways)` starting from zero known connections, fail if
no gateway was discovered, otherwise succeed. -/
def setup (gws : List GatewayConfig) (discoveryRetry : Nat)
    (step : Nat → Nat) : SetupResult :=
  if validateGateways gws then
    if (discoveryLoop step gws.length discoveryRetry 0).2 = 0 then
      SetupResult.noGateways
    else SetupResult.success
  else SetupResult.configError

/-! Device state ingestion (`XiaomiDevice`, lines 164–186)

Push payloads and attribute snapshots are Python dicts with integer
values, modelled as association lists with unique keys. -/

/-- A push payload / attribute snapshot: `mapping<string, int>`. -/
abbrev AttrMap := List (String × Int)

/-- Dictionary lookup `d[k]` / membership `k in d`: the value at the first
(and, with unique keys, only) occurrence of `k`. -/
def lookupKey : AttrMap → String → Option Int
  | [], _ => none
  | (k', v) :: rest, k => if k' = k then some v else lookupKey rest k

/-- Dictionary assignment `d[k] = v`: replace the value at `k` if present
(preserving insertion order), otherwise append a new entry. -/
def setAttr : AttrMap → String → Int → AttrMap
  | [], k, v => [(k, v)]
  | (k', v') :: rest, k, v =>
    if k' = k then (k, v) :: rest else (k', v') :: setAttr rest k v

/-- The constant `homeassistant.const.ATTR_BATTERY_LEVEL`. -/
def ATTR_BATTERY_LEVEL : String := "battery_level"

/-- Method `XiaomiDevice.parse_voltage(data)`: return `False` leaving the
attributes untouched when the payload has no `voltage` key; otherwise
clamp the voltage to `[2800, 3300]`, store
`round(((voltage - 2800) / (3300 - 2800)) * 100)` under the battery-level
attribute and return `True`. -/
def parse_voltage (data : AttrMap) (attrs : AttrMap) : Bool × AttrMap :=
  match lookupKey data "voltage" with
  | none => (false, attrs)
  | some voltage =>
    let max_volt : Int := 3300
    let min_volt : Int := 2800
    let v1 : Int := min voltage max_volt
    let v2 : Int := max v1 min_volt
    let percent : ℚ :=
      (((v2 : ℚ) - (min_volt : ℚ)) / ((max_volt : ℚ) - (min_volt : ℚ))) * 100
    (true, setAttr attrs ATTR_BATTERY_LEVEL (round percent))

/-- Observable outcome of one `XiaomiDevice.push_data(data)` call:
which of the two parse methods ran, whether
`schedule_update_ha_state()` fired, and the resulting attribute
snapshot. -/
structure PushResult where
  parseDataRan : Bool
  parseVoltageRan : Bool
  notified : Bool
  attrs : AttrMap
deriving DecidableEq

/-- Method `XiaomiDevice.push_data(data)`:
`if self.parse_data(data) or self.parse_voltage(data): self.schedule_update_ha_state()`.
`parse_data` is abstract in the source (`raise NotImplementedError`), so it
is a parameter here; Python's `or` short-circuits, so `parse_voltage` runs
only when `parse_data` returned `False`. -/
def push_data (parse_data : AttrMap → AttrMap → Bool × AttrMap)
    (data : AttrMap) (attrs : AttrMap) : PushResult :=
  let r1 := parse_data data attrs
  if r1.1 then
    { parseDataRan := true, parseVoltageRan := false
      notified := true, attrs := r1.2 }
  else
    let r2 := parse_voltage data r1.2
    { parseDataRan := true, parseVoltageRan := true
      notified := r2.1, attrs := r2.2 }

/-! Ringtone services (`setup`, lines 83–125) -/

/-- A live gateway connection as seen by the service loops: `gid` stands
for the dictionary key of `hass.data[PY_XIAOMI_GATEWAY].gateways.items()`
(it distinguishes connections that share a sid), `sid` is the
connection's `gateway.sid`. -/
structure Gateway where
  gid : Nat
  sid : String
deriving DecidableEq

/-- A ringtone payload handed to `gateway.write_to_hub`: `{'mid': ...}`
with an optional `'vol'` entry. -/
structure WriteMsg where
  mid : Int
  vol : Option Int
deriving DecidableEq

/-- The non-fatal, logged failures of the two services. -/
inductive ServiceError
  | missingParameter
  | reservedRingtoneId
  | unknownGateway
deriving DecidableEq

/-- Outcome of one service invocation: the logged error, if any, and the
writes issued to hubs (which gateway received which payload). -/
structure ServiceOutcome where
  error : Option ServiceError
  writes : List (Gateway × WriteMsg)
deriving DecidableEq

/-- The membership test `ring_id in [9, 14-19]` of
`play_ringtone_service` — `14-19` is arithmetic, so the list is
`[9, -5]`. -/
def reserved_mids : List Int := [9, 14 - 19]

/-- The `for (_, gateway) in ...gateways.items(): if gateway.sid == gw_sid:
write; break / else: log unknown` loop shared by both services. -/
def writeFirstMatch (gws : List Gateway) (target : String)
    (msg : WriteMsg) : ServiceOutcome :=
  match gws with
  | [] => { error := some ServiceError.unknownGateway, writes := [] }
  | g :: rest =>
    if g.sid = target then { error := none, writes := [(g, msg)] }
    else writeFirstMatch rest target msg

/-- Service `play_ringtone_service(call)`: both `ringtone_id` and `gw_sid` must be
present; a `ring_id` in `reserved_mids` is rejected; otherwise the payload
`{mid: ring_id}` (plus `vol` when `ringtone_vol` is present) is written to
the first gateway whose sid matches. -/
def play_ringtone_service (ringtone_id : Option Int)
    (ringtone_vol : Option Int) (gw_sid : Option String)
    (gws : List Gateway) : ServiceOutcome :=
  match ringtone_id, gw_sid with
  | some rid, some sid =>
    if rid ∈ reserved_mids then
      { error := some ServiceError.reservedRingtoneId, writes := [] }
    else
      writeFirstMatch gws sid { mid := rid, vol := ringtone_vol }
  | _, _ => { error := some ServiceError.missingParameter, writes := [] }

/-- Service `stop_ringtone_service(call)`: `gw_sid` must be present; the fixed
payload `{mid: 10000}` is written to the first gateway whose sid
matches. -/
def stop_ringtone_service (gw_sid : Option String)
    (gws : List Gateway) : ServiceOutcome :=
  match gw_sid with
  | none => { error := some ServiceError.missingParameter, writes := [] }
  | some sid => writeFirstMatch gws sid { mid := 10000, vol := none }

/-! The specification battery transform (for refinement) -/

/-- The battery transform as §4.4 of the specification words it:
"clamp rawVoltage to [2800, 3300] ..., compute
`percent = (clamped - 2800) / (3300 - 2800) * 100`, round to nearest
integer". Stated independently of the source to compare against
`parse_voltage`. -/
def computeBatteryPercentSpec (rawVoltage : Int) : Int :=
  let clamped : Int := min (max rawVoltage 2800) 3300
  round ((((clamped : ℚ) - 2800) / (3300 - 2800)) * 100)

/-! Helper lemmas: characters and normalization -/

theorem toNat_ofNat_of_valid (m : Nat) (h : m.isValidChar) :
    (Char.ofNat m).toNat = m := by
  unfold Char.ofNat
  rw [dif_pos h]
  rfl

theorem toLower_eq_of_upper (c : Char) (h : c.toNat ≥ 65 ∧ c.toNat ≤ 90) :
    c.toLower = Char.ofNat (c.toNat + 32) := by
  unfold Char.toLower
  rw [if_pos h]

theorem toLower_eq_self (c : Char) (h : ¬(c.toNat ≥ 65 ∧ c.toNat ≤ 90)) :
    c.toLower = c := by
  unfold Char.toLower
  rw [if_neg h]

theorem toLower_toLower (c : Char) : c.toLower.toLower = c.toLower := by
  by_cases h : c.toNat ≥ 65 ∧ c.toNat ≤ 90
  · rw [toLower_eq_of_upper c h]
    have hv : (c.toNat + 32).isValidChar := by
      have hb := h.2
      exact Or.inl (by omega)
    have h2 : (Char.ofNat (c.toNat + 32)).toNat = c.toNat + 32 :=
      toNat_ofNat_of_valid _ hv
    apply toLower_eq_self
    rw [h2]
    have hb := h.1
    omega
  · rw [toLower_eq_self c h, toLower_eq_self c h]

theorem toLower_ne_colon (c : Char) (hc : c ≠ ':') : c.toLower ≠ ':' := by
  by_cases h : c.toNat ≥ 65 ∧ c.toNat ≤ 90
  · rw [toLower_eq_of_upper c h]
    intro heq
    have ht := congrArg Char.toNat heq
    have hv : (c.toNat + 32).isValidChar := by
      have hb := h.2
      exact Or.inl (by omega)
    rw [toNat_ofNat_of_valid _ hv] at ht
    have hcolon : (':' : Char).toNat = 58 := rfl
    rw [hcolon] at ht
    have hb := h.1
    omega
  · rw [toLower_eq_self c h]
    exact hc

theorem normalizeSid_data (s : String) :
    (normalizeSid s).data = (s.data.filter (fun c => c != ':')).map Char.toLower :=
  rfl

theorem mem_normalizeSid (s : String) (c : Char)
    (hc : c ∈ (normalizeSid s).data) : c ≠ ':' ∧ c.toLower = c := by
  rw [normalizeSid_data] at hc
  rcases List.mem_map.mp hc with ⟨b, hb, rfl⟩
  have hbne : b ≠ ':' := by
    have := List.of_mem_filter hb
    exact bne_iff_ne.mp this
  exact ⟨toLower_ne_colon b hbne, toLower_toLower b⟩

theorem normalizeSid_normalizeSid (s : String) :
    normalizeSid (normalizeSid s) = normalizeSid s := by
  have hfilter :
      (normalizeSid s).data.filter (fun c => c != ':') = (normalizeSid s).data := by
    apply List.filter_eq_self.mpr
    intro a ha
    exact bne_iff_ne.mpr (mem_normalizeSid s a ha).1
  show (⟨((normalizeSid s).data.filter (fun c => c != ':')).map Char.toLower⟩ : String) = _
  rw [hfilter]
  have hmap : ((normalizeSid s).data).map Char.toLower = (normalizeSid s).data := by
    have := List.map_congr_left
      (l := (normalizeSid s).data) (f := fun c => Char.toLower c) (g := fun c => c)
      (fun a ha => (mem_normalizeSid s a ha).2)
    simpa using this
  rw [hmap]

/-! Helper lemmas: discovery loop -/

theorem discoveryLoop_calls_le (step : Nat → Nat) (e : Nat) :
    ∀ r c, (discoveryLoop step e r c).1 ≤ r := by
  intro r
  induction r with
  | zero => intro c; simp [discoveryLoop]
  | succ n ih =>
    intro c
    simp only [discoveryLoop]
    split
    · simp
    · simpa using Nat.succ_le_succ (ih (step c))

theorem discoveryLoop_count (step : Nat → Nat) (e : Nat) :
    ∀ r c, (discoveryLoop step e r c).2 = step^[(discoveryLoop step e r c).1] c := by
  intro r
  induction r with
  | zero => intro c; simp [discoveryLoop]
  | succ n ih =>
    intro c
    simp only [discoveryLoop]
    split
    · simp
    · simpa [Function.iterate_succ_apply] using ih (step c)

theorem discoveryLoop_stop_early (step : Nat → Nat) (e : Nat) :
    ∀ r c k, 1 ≤ k → k ≤ r → e ≤ step^[k] c →
      (discoveryLoop step e r c).1 ≤ k := by
  intro r
  induction r with
  | zero => intro c k _ hk _; omega
  | succ n ih =>
    intro c k hk1 hkr hke
    simp only [discoveryLoop]
    split
    · exact hk1
    · rename_i hlt
      rcases Nat.exists_eq_add_of_le hk1 with ⟨k', rfl⟩
      have hk'1 : 1 ≤ k' := by
        rcases Nat.eq_zero_or_pos k' with h0 | h1
        · subst h0
          simp only [Nat.add_zero, Function.iterate_one] at hke
          omega
        · exact h1
      have hrec : (discoveryLoop step e n (step c)).1 ≤ k' := by
        apply ih (step c) k' hk'1 (by omega)
        have hit : step^[1 + k'] c = step^[k'] (step c) := by
          rw [Nat.add_comm]
          exact Function.iterate_succ_apply step k' c
        rw [hit] at hke
        exact hke
      show (discoveryLoop step e n (step c)).1 + 1 ≤ 1 + k'
      omega

theorem discoveryLoop_id_calls (e : Nat) (he : 1 ≤ e) :
    ∀ r, (discoveryLoop (fun n => n) e r 0).1 = r := by
  intro r
  induction r with
  | zero => simp [discoveryLoop]
  | succ n ih =>
    simp only [discoveryLoop]
    rw [if_neg (by omega)]
    simpa using ih

/-! Helper lemmas: key validation -/

theorem validateGateways_eq_true_iff (gws : List GatewayConfig) :
    validateGateways gws = true ↔
      ∀ g ∈ gws, ∀ k, g.key = some k → k.length = 16 := by
  induction gws with
  | nil => simp [validateGateways]
  | cons g rest ih =>
    cases hk : g.key with
    | none => simp [validateGateways, hk, ih, List.forall_mem_cons]
    | some k =>
      by_cases hl : k.length = 16 <;>
        simp [validateGateways, hk, hl, ih, List.forall_mem_cons]

/-! Helper lemmas: battery transform -/

theorem parse_voltage_no_field (data attrs : AttrMap)
    (h : lookupKey data "voltage" = none) :
    parse_voltage data attrs = (false, attrs) := by
  simp [parse_voltage, h]

theorem clamp_comm (v : Int) :
    max (min v 3300) 2800 = min (max v 2800) 3300 := by
  omega

theorem parse_voltage_field (data attrs : AttrMap) (v : Int)
    (h : lookupKey data "voltage" = some v) :
    parse_voltage data attrs =
      (true, setAttr attrs ATTR_BATTERY_LEVEL (computeBatteryPercentSpec v)) := by
  simp only [parse_voltage, h, computeBatteryPercentSpec]
  rw [clamp_comm]
  norm_num

theorem computeBatteryPercentSpec_low (v : Int) (h : v ≤ 2800) :
    computeBatteryPercentSpec v = 0 := by
  unfold computeBatteryPercentSpec
  have hcl : min (max v 2800) 3300 = 2800 := by omega
  rw [hcl]
  norm_num

theorem computeBatteryPercentSpec_high (v : Int) (h : 3300 ≤ v) :
    computeBatteryPercentSpec v = 100 := by
  unfold computeBatteryPercentSpec
  have hcl : min (max v 2800) 3300 = 3300 := by omega
  rw [hcl]
  norm_num

theorem computeBatteryPercentSpec_mid :
    computeBatteryPercentSpec 3050 = 50 := by
  unfold computeBatteryPercentSpec
  norm_num

theorem computeBatteryPercentSpec_bounds (v : Int) :
    0 ≤ computeBatteryPercentSpec v ∧ computeBatteryPercentSpec v ≤ 100 := by
  unfold computeBatteryPercentSpec
  have h1 : (2800 : Int) ≤ min (max v 2800) 3300 := by omega
  have h2 : min (max v 2800) 3300 ≤ 3300 := by omega
  set c : Int := min (max v 2800) 3300 with hc
  have h1q : (2800 : ℚ) ≤ (c : ℚ) := by exact_mod_cast h1
  have h2q : (c : ℚ) ≤ 3300 := by exact_mod_cast h2
  constructor
  · rw [round_eq]
    refine Int.le_floor.mpr ?_
    push_cast
    nlinarith
  · rw [round_eq]
    calc ⌊(((c : ℚ) - 2800) / (3300 - 2800)) * 100 + 1 / 2⌋
        ≤ ⌊(201 / 2 : ℚ)⌋ := Int.floor_mono (by nlinarith)
      _ = 100 := by norm_num

theorem lookupKey_setAttr (m : AttrMap) (k : String) (v : Int) :
    lookupKey (setAttr m k v) k = some v := by
  induction m with
  | nil => simp [setAttr, lookupKey]
  | cons p rest ih =>
    rcases p with ⟨k', v'⟩
    by_cases h : k' = k <;> simp [setAttr, lookupKey, h, ih]

/-! Helper lemmas: ringtone service loops -/

theorem writeFirstMatch_eq_find (gws : List Gateway) (t : String)
    (m : WriteMsg) :
    writeFirstMatch gws t m =
      match gws.find? (fun g => g.sid == t) with
      | some g0 => { error := none, writes := [(g0, m)] }
      | none => { error := some ServiceError.unknownGateway, writes := [] } := by
  induction gws with
  | nil => rfl
  | cons g rest ih =>
    by_cases h : g.sid = t
    · rw [List.find?_cons_of_pos _ (by simp [h])]
      simp [writeFirstMatch, h]
    · rw [List.find?_cons_of_neg _ (by simp [h])]
      simp only [writeFirstMatch]
      rw [if_neg h]
      exact ih

theorem writeFirstMatch_no_match (gws : List Gateway) (t : String)
    (m : WriteMsg) (h : ∀ g ∈ gws, g.sid ≠ t) :
    writeFirstMatch gws t m =
      { error := some ServiceError.unknownGateway, writes := [] } := by
  rw [writeFirstMatch_eq_find]
  have hfind : gws.find? (fun g => g.sid == t) = none :=
    List.find?_eq_none.mpr (fun x hx => by simpa using h x hx)
  rw [hfind]

theorem writeFirstMatch_first (gws : List Gateway) (t : String)
    (m : WriteMsg) (g0 : Gateway)
    (h : gws.find? (fun g => g.sid == t) = some g0) :
    writeFirstMatch gws t m = { error := none, writes := [(g0, m)] } := by
  rw [writeFirstMatch_eq_find, h]

theorem find?_sid_isSome (gws : List Gateway) (t : String) (g : Gateway)
    (hg : g ∈ gws) (hs : g.sid = t) :
    ∃ g0, gws.find? (fun g' => g'.sid == t) = some g0 := by
  cases hfind : gws.find? (fun g' => g'.sid == t) with
  | none =>
    have := List.find?_eq_none.mp hfind g hg
    simp [hs] at this
  | some g0 => exact ⟨g0, rfl⟩

theorem writeFirstMatch_writes_len (gws : List Gateway) (t : String)
    (m : WriteMsg) : (writeFirstMatch gws t m).writes.length ≤ 1 := by
  rw [writeFirstMatch_eq_find]
  cases hfind : gws.find? (fun g => g.sid == t) <;> simp

theorem writeFirstMatch_writes_mem (gws : List Gateway) (t : String)
    (m : WriteMsg) (g : Gateway) (w : WriteMsg)
    (hw : (g, w) ∈ (writeFirstMatch gws t m).writes) :
    gws.find? (fun g' => g'.sid == t) = some g ∧ g.sid = t := by
  rw [writeFirstMatch_eq_find] at hw
  cases hfind : gws.find? (fun g' => g'.sid == t) with
  | none => rw [hfind] at hw; simp at hw
  | some g0 =>
    rw [hfind] at hw
    simp at hw
    rcases hw with ⟨rfl, rfl⟩
    refine ⟨rfl, ?_⟩
    have := List.find?_some hfind
    simpa using this

/-! Claim theorems -/

/-- C1: the claim (and the spec's intent) reserve ringtone ids
{9, 14, 15, 16, 17, 18, 19}, but the source's membership test
`ring_id in [9, 14-19]` evaluates the arithmetic `14-19` to `-5`: the
reserved list as implemented is `[9, -5]`.  At the failing input
`ringtone_id = 14` with a matching gateway sid, the action is NOT
rejected — the write `{mid: 14}` is issued to the gateway (only id 9 of
the claimed set is actually rejected). -/
theorem play_ringtone_id_14_not_rejected :
    reserved_mids = [9, -5]
    ∧ play_ringtone_service (some 14) none (some "abc") [⟨0, "abc"⟩] =
        { error := none, writes := [(⟨0, "abc"⟩, { mid := 14, vol := none })] }
    ∧ play_ringtone_service (some 9) none (some "abc") [⟨0, "abc"⟩] =
        { error := some ServiceError.reservedRingtoneId, writes := [] } :=
  ⟨rfl, rfl, rfl⟩

/-- C2 counterexample: deliver a push whose `parse_data` returns `True` on
a payload that does contain a voltage field — `parse_voltage` is not
invoked (Python's `or` short-circuits), refuting "parseVoltage is invoked
even when parseData returns true". -/
theorem push_data_skips_parse_voltage_cex :
    ((fun _ a => (true, a)) : AttrMap → AttrMap → Bool × AttrMap)
        [("voltage", 3000)] [] = (true, [])
    ∧ (push_data (fun _ a => (true, a)) [("voltage", 3000)] []).parseVoltageRan
        = false :=
  ⟨rfl, rfl⟩

/-- C2 (amended): on every push, `parse_data` is invoked; `parse_voltage`
is invoked iff `parse_data` returned false (Python's `or`
short-circuits); a state-changed notification is emitted iff
`parse_data` returned true or `parse_voltage` returned true. -/
theorem push_data_dispatch (pd : AttrMap → AttrMap → Bool × AttrMap)
    (data attrs : AttrMap) :
    (push_data pd data attrs).parseDataRan = true
    ∧ ((push_data pd data attrs).parseVoltageRan = true ↔
        (pd data attrs).1 = false)
    ∧ ((push_data pd data attrs).notified = true ↔
        ((pd data attrs).1 = true ∨
          (parse_voltage data (pd data attrs).2).1 = true)) := by
  by_cases h : (pd data attrs).1 = true <;> simp [push_data, h]

/-- C3: with a valid configuration, the discovery loop calls the client at
most `R` times; it stops as soon as some call has brought the connection
count to at least the number of configured gateways; an empty registry
after the loop makes setup fail with no-gateways, a nonzero count (even
below the expectation) lets setup succeed; and a client that never
reveals a connection is called exactly `R` times. -/
theorem setup_discovery_retry (step : Nat → Nat) (gws : List GatewayConfig)
    (R : Nat) (hval : validateGateways gws = true) :
    (discoveryLoop step gws.length R 0).1 ≤ R
    ∧ (∀ k, 1 ≤ k → k ≤ R → gws.length ≤ step^[k] 0 →
        (discoveryLoop step gws.length R 0).1 ≤ k)
    ∧ ((discoveryLoop step gws.length R 0).2 = 0 →
        setup gws R step = SetupResult.noGateways)
    ∧ ((discoveryLoop step gws.length R 0).2 ≠ 0 →
        setup gws R step = SetupResult.success)
    ∧ (1 ≤ gws.length →
        (discoveryLoop (fun n => n) gws.length R 0).1 = R) := by
  refine ⟨discoveryLoop_calls_le step gws.length R 0,
    fun k hk1 hkR hke =>
      discoveryLoop_stop_early step gws.length R 0 k hk1 hkR hke,
    ?_, ?_, fun he => discoveryLoop_id_calls gws.length he R⟩
  · intro h0
    simp [setup, hval, h0]
  · intro h0
    simp [setup, hval, h0]

/-- Witness for C3: one configured gateway, a client that never reveals a
connection, three retries — exactly three discovery calls, and setup
fails with no gateways. -/
theorem setup_discovery_retry_w :
    (discoveryLoop (fun n => n) 1 3 0).1 = 3
    ∧ setup [⟨none, none⟩] 3 (fun n => n) = SetupResult.noGateways := by
  have h := setup_discovery_retry (fun n => n) [⟨none, none⟩] 3 (by decide)
  exact ⟨h.2.2.2.2 (by decide), h.2.2.1 (by decide)⟩

/-- C4: with a voltage field present, `parse_voltage` stores exactly the
specification's transform — clamp to [2800, 3300], then
`round((clamped - 2800) / (3300 - 2800) * 100)` — under the battery-level
attribute; the transform maps 2800 to 0, 3300 to 100, 3050 to 50, any
input at or below 2800 to 0, and any input at or above 3300 to 100. -/
theorem parse_voltage_matches_spec (v : Int) (data attrs : AttrMap)
    (h : lookupKey data "voltage" = some v) :
    parse_voltage data attrs =
      (true, setAttr attrs ATTR_BATTERY_LEVEL (computeBatteryPercentSpec v))
    ∧ computeBatteryPercentSpec 2800 = 0
    ∧ computeBatteryPercentSpec 3300 = 100
    ∧ computeBatteryPercentSpec 3050 = 50
    ∧ (∀ w : Int, w ≤ 2800 → computeBatteryPercentSpec w = 0)
    ∧ (∀ w : Int, 3300 ≤ w → computeBatteryPercentSpec w = 100) :=
  ⟨parse_voltage_field data attrs v h,
    computeBatteryPercentSpec_low 2800 le_rfl,
    computeBatteryPercentSpec_high 3300 le_rfl,
    computeBatteryPercentSpec_mid,
    fun w hw => computeBatteryPercentSpec_low w hw,
    fun w hw => computeBatteryPercentSpec_high w hw⟩

/-- Witness for C4 at raw voltage 3050: the battery level becomes 50. -/
theorem parse_voltage_matches_spec_w :
    parse_voltage [("voltage", 3050)] [] =
      (true, [(ATTR_BATTERY_LEVEL, 50)]) := by
  have h := parse_voltage_matches_spec 3050 [("voltage", 3050)] [] rfl
  rw [h.1, h.2.2.2.1]
  rfl

/-- C5: `parse_voltage` returns false and leaves the attribute snapshot
unmodified when the payload has no voltage field, and returns true
whenever a voltage field is present (regardless of the previously stored
battery level). -/
theorem parse_voltage_change_signal (data attrs : AttrMap) :
    (lookupKey data "voltage" = none →
      parse_voltage data attrs = (false, attrs))
    ∧ (∀ v : Int, lookupKey data "voltage" = some v →
        (parse_voltage data attrs).1 = true) := by
  constructor
  · exact parse_voltage_no_field data attrs
  · intro v hv
    rw [parse_voltage_field data attrs v hv]

/-- Witness for C5: a payload with no voltage key changes nothing; a
payload with voltage 3050 signals a change even though the stored
battery level is already 50. -/
theorem parse_voltage_change_signal_w :
    parse_voltage [("status", 1)] [(ATTR_BATTERY_LEVEL, 50)] =
      (false, [(ATTR_BATTERY_LEVEL, 50)])
    ∧ (parse_voltage [("voltage", 3050)] [(ATTR_BATTERY_LEVEL, 50)]).1
        = true :=
  ⟨(parse_voltage_change_signal [("status", 1)]
      [(ATTR_BATTERY_LEVEL, 50)]).1 rfl,
   (parse_voltage_change_signal [("voltage", 3050)]
      [(ATTR_BATTERY_LEVEL, 50)]).2 3050 rfl⟩

/-- C6: a configured gateway whose key is present with length ≠ 16 makes
setup fail with a configuration error; when every key is absent or of
length 16 (in particular when keys are null), validation passes and setup
does not report a configuration error. -/
theorem setup_key_validation (gws : List GatewayConfig) (R : Nat)
    (step : Nat → Nat) :
    ((∃ g ∈ gws, ∃ k, g.key = some k ∧ k.length ≠ 16) →
      setup gws R step = SetupResult.configError)
    ∧ ((∀ g ∈ gws, ∀ k, g.key = some k → k.length = 16) →
        validateGateways gws = true
        ∧ setup gws R step ≠ SetupResult.configError) := by
  constructor
  · rintro ⟨g, hg, k, hk, hlen⟩
    have hval : validateGateways gws = false := by
      rcases Bool.eq_false_or_eq_true (validateGateways gws) with h | h
      · exact absurd ((validateGateways_eq_true_iff gws).mp h g hg k hk) hlen
      · exact h
    simp [setup, hval]
  · intro hall
    have hval : validateGateways gws = true :=
      (validateGateways_eq_true_iff gws).mpr hall
    refine ⟨hval, ?_⟩
    simp only [setup, hval, if_true]
    split <;> simp

/-- Witness for C6: a 3-character key aborts setup; an absent key does
not. -/
theorem setup_key_validation_w :
    setup [⟨none, some "abc"⟩] 3 (fun n => n) = SetupResult.configError
    ∧ validateGateways [⟨none, none⟩] = true
    ∧ setup [⟨none, none⟩] 3 (fun n => n) ≠ SetupResult.configError := by
  have h1 := (setup_key_validation [⟨none, some "abc"⟩] 3 (fun n => n)).1
    ⟨⟨none, some "abc"⟩, by simp, "abc", rfl, by decide⟩
  have h2 := (setup_key_validation [⟨none, none⟩] 3 (fun n => n)).2 ?_
  · exact ⟨h1, h2.1, h2.2⟩
  · intro g hg k hk
    simp only [List.mem_singleton] at hg
    subst hg
    simp at hk

/-- C7: sid normalization (remove every `:`, lowercase) is idempotent, and
its output is canonical: it contains no `:` and no character changed by
lowercasing (no ASCII uppercase). -/
theorem normalizeSid_idempotent_canonical (s : String) :
    normalizeSid (normalizeSid s) = normalizeSid s
    ∧ ∀ c ∈ (normalizeSid s).data, c ≠ ':' ∧ c.toLower = c :=
  ⟨normalizeSid_normalizeSid s, fun c hc => mem_normalizeSid s c hc⟩

/-- Witness for C7 on the identifier "AB:cd". -/
theorem normalizeSid_idempotent_canonical_w :
    normalizeSid (normalizeSid "AB:cd") = normalizeSid "AB:cd"
    ∧ ('a' ≠ ':' ∧ 'a'.toLower = 'a') :=
  ⟨(normalizeSid_idempotent_canonical "AB:cd").1,
   (normalizeSid_idempotent_canonical "AB:cd").2 'a' (by decide)⟩

/-- C8: with a target sid present, stop-ringtone writes exactly the fixed
payload `{mid: 10000}` to the first live connection whose sid matches;
when no live connection matches, both services log unknown-gateway and
issue no write. -/
theorem ringtone_services_resolve (rid : Int) (vol : Option Int)
    (sid : String) (gws : List Gateway) :
    ((∃ g ∈ gws, g.sid = sid) →
      ∀ g0, gws.find? (fun g' => g'.sid == sid) = some g0 →
        g0 ∈ gws ∧ g0.sid = sid ∧
          stop_ringtone_service (some sid) gws =
            { error := none, writes := [(g0, { mid := 10000, vol := none })] })
    ∧ ((∀ g ∈ gws, g.sid ≠ sid) →
        stop_ringtone_service (some sid) gws =
          { error := some ServiceError.unknownGateway, writes := [] })
    ∧ ((∀ g ∈ gws, g.sid ≠ sid) →
        (play_ringtone_service (some rid) vol (some sid) gws).writes = [])
    ∧ (rid ∉ reserved_mids → (∀ g ∈ gws, g.sid ≠ sid) →
        play_ringtone_service (some rid) vol (some sid) gws =
          { error := some ServiceError.unknownGateway, writes := [] }) := by
  refine ⟨?_, ?_, ?_, ?_⟩
  · rintro ⟨g, hg, hs⟩ g0 hfind
    refine ⟨List.mem_of_find?_eq_some hfind, ?_, ?_⟩
    · simpa using List.find?_some hfind
    · show writeFirstMatch gws sid { mid := 10000, vol := none } = _
      exact writeFirstMatch_first gws sid _ g0 hfind
  · intro hnone
    show writeFirstMatch gws sid { mid := 10000, vol := none } = _
    exact writeFirstMatch_no_match gws sid _ hnone
  · intro hnone
    by_cases hr : rid ∈ reserved_mids
    · simp [play_ringtone_service, hr]
    · simp only [play_ringtone_service, if_neg hr]
      rw [writeFirstMatch_no_match gws sid _ hnone]
  · intro hr hnone
    simp only [play_ringtone_service, if_neg hr]
    exact writeFirstMatch_no_match gws sid _ hnone

/-- Witness for C8: one connection with sid "aa"; stopping on "aa" writes
`{mid: 10000}` to it, stopping or playing on "zz" writes nothing. -/
theorem ringtone_services_resolve_w :
    (⟨0, "aa"⟩ : Gateway) ∈ [(⟨0, "aa"⟩ : Gateway)]
    ∧ stop_ringtone_service (some "aa") [⟨0, "aa"⟩] =
        { error := none, writes := [(⟨0, "aa"⟩, { mid := 10000, vol := none })] }
    ∧ stop_ringtone_service (some "zz") [⟨0, "aa"⟩] =
        { error := some ServiceError.unknownGateway, writes := [] }
    ∧ play_ringtone_service (some 1) none (some "zz") [⟨0, "aa"⟩] =
        { error := some ServiceError.unknownGateway, writes := [] } := by
  have hmatch := (ringtone_services_resolve 1 none "aa" [⟨0, "aa"⟩]).1
    ⟨⟨0, "aa"⟩, by decide, rfl⟩ ⟨0, "aa"⟩ (by decide)
  have hstop := (ringtone_services_resolve 1 none "zz" [⟨0, "aa"⟩]).2.1
    (by decide)
  have hplay := (ringtone_services_resolve 1 none "zz" [⟨0, "aa"⟩]).2.2.2
    (by decide) (by decide)
  exact ⟨hmatch.1, hmatch.2.2, hstop, hplay⟩

/-- C10: each invocation of either ringtone service issues at most one
write; every write goes to the first connection (in iteration order)
whose sid equals the requested sid, so connections with non-matching sids
are never written to. -/
theorem ringtone_services_single_write (ringtone_id vol : Option Int)
    (gw_sid : Option String) (gws : List Gateway) :
    (play_ringtone_service ringtone_id vol gw_sid gws).writes.length ≤ 1
    ∧ (stop_ringtone_service gw_sid gws).writes.length ≤ 1
    ∧ (∀ s : String, gw_sid = some s →
        ∀ g m, (g, m) ∈ (play_ringtone_service ringtone_id vol gw_sid gws).writes →
          gws.find? (fun g' => g'.sid == s) = some g ∧ g.sid = s)
    ∧ (∀ s : String, gw_sid = some s →
        ∀ g m, (g, m) ∈ (stop_ringtone_service gw_sid gws).writes →
          gws.find? (fun g' => g'.sid == s) = some g ∧ g.sid = s) := by
  refine ⟨?_, ?_, ?_, ?_⟩
  · cases ringtone_id with
    | none => simp [play_ringtone_service]
    | some rid =>
      cases gw_sid with
      | none => simp [play_ringtone_service]
      | some s =>
        by_cases hr : rid ∈ reserved_mids
        · simp [play_ringtone_service, hr]
        · simp only [play_ringtone_service, if_neg hr]
          exact writeFirstMatch_writes_len gws s _
  · cases gw_sid with
    | none => simp [stop_ringtone_service]
    | some s => exact writeFirstMatch_writes_len gws s _
  · rintro s rfl g m hw
    cases ringtone_id with
    | none => simp [play_ringtone_service] at hw
    | some rid =>
      by_cases hr : rid ∈ reserved_mids
      · simp [play_ringtone_service, hr] at hw
      · simp only [play_ringtone_service, if_neg hr] at hw
        exact writeFirstMatch_writes_mem gws s _ g m hw
  · rintro s rfl g m hw
    exact writeFirstMatch_writes_mem gws s _ g m hw

/-- Witness for C10: two connections share sid "a"; the play write goes to
the first one only. -/
theorem ringtone_services_single_write_w :
    (play_ringtone_service (some 1) none (some "a")
        [⟨0, "a"⟩, ⟨1, "a"⟩]).writes.length ≤ 1
    ∧ ([⟨0, "a"⟩, ⟨1, "a"⟩] : List Gateway).find?
        (fun g' => g'.sid == "a") = some ⟨0, "a"⟩
    ∧ (⟨0, "a"⟩ : Gateway).sid = "a" := by
  have h := ringtone_services_single_write (some 1) none (some "a")
    [⟨0, "a"⟩, ⟨1, "a"⟩]
  have hmem := h.2.2.1 "a" rfl ⟨0, "a"⟩ { mid := 1, vol := none } (by decide)
  exact ⟨h.1, hmem.1, hmem.2⟩

/-- C9: after `parse_voltage` on a payload containing a (numeric, integer)
voltage value, the stored battery-level attribute is an integer between 0
and 100. -/
theorem parse_voltage_battery_in_range (v : Int) (data attrs : AttrMap)
    (h : lookupKey data "voltage" = some v) :
    lookupKey (parse_voltage data attrs).2 ATTR_BATTERY_LEVEL =
      some (computeBatteryPercentSpec v)
    ∧ 0 ≤ computeBatteryPercentSpec v
    ∧ computeBatteryPercentSpec v ≤ 100 := by
  rw [parse_voltage_field data attrs v h]
  exact ⟨lookupKey_setAttr attrs ATTR_BATTERY_LEVEL _,
    computeBatteryPercentSpec_bounds v⟩

/-- Witness for C9 at the out-of-range raw voltage 5000. -/
theorem parse_voltage_battery_in_range_w :
    lookupKey (parse_voltage [("voltage", 5000)] []).2 ATTR_BATTERY_LEVEL =
      some (computeBatteryPercentSpec 5000)
    ∧ 0 ≤ computeBatteryPercentSpec 5000
    ∧ computeBatteryPercentSpec 5000 ≤ 100 :=
  parse_voltage_battery_in_range 5000 [("voltage", 5000)] [] rfl

end Xiaomi
